import Mathlib

/-!
Verification of the authentication core of the apexpro-openapi client
(`src/apexpro/http_private.py`, class `HttpPrivate`): the HMAC request
signer (`sign`), the private-request header construction
(`_private_request`, `_get`), onboarding (`register_user`) and the stark
key derivation (`derive_stark_key`).

Modelling conventions:
* Python strings are Lean `String`s; Python `dict` parameters are
  association lists `List (String × Option String)` in insertion order
  (`none` models Python `None` values; scalar values are taken already
  stringified, as the spec's wire-format section states).
* Byte strings are `List Nat` with each entry < 256.
* The external cryptographic primitives (`hmac`/`hashlib.sha256` from the
  Python standard library, `Web3.solidityKeccak` from web3) are not code
  of this repository: they are abstract function parameters, universally
  quantified in every theorem.  The structural parts the source itself
  performs (UTF-8 encoding, standard base64, canonicalization,
  concatenation, hex parsing and printing, the right shift) are embedded
  concretely below.
-/

namespace Apexpro

/-- UTF-8 encoding of one character (the bytes Python's
`str.encode(encoding='utf-8')` emits for one code point). -/
def utf8EncodeChar (c : Char) : List Nat :=
  let n := c.toNat
  if n < 0x80 then [n]
  else if n < 0x800 then
    [0xC0 ||| (n >>> 6), 0x80 ||| (n &&& 0x3F)]
  else if n < 0x10000 then
    [0xE0 ||| (n >>> 12), 0x80 ||| ((n >>> 6) &&& 0x3F), 0x80 ||| (n &&& 0x3F)]
  else
    [0xF0 ||| (n >>> 18), 0x80 ||| ((n >>> 12) &&& 0x3F),
      0x80 ||| ((n >>> 6) &&& 0x3F), 0x80 ||| (n &&& 0x3F)]

/-- UTF-8 encoding of a string: Python's `s.encode(encoding='utf-8')`. -/
def utf8Encode (s : String) : List Nat :=
  (s.data.map utf8EncodeChar).flatten

/-- The base64 alphabet, as a list of characters. -/
def b64Alphabet : List Char :=
  "ABCDEFGHIJKLMNOPQRSTUVWXYZabcdefghijklmnopqrstuvwxyz0123456789+/".data

/-- Character for one 6-bit group. -/
def b64Char (n : Nat) : Char := b64Alphabet.getD n 'A'

/-- Standard base64 encoding with padding, on a byte list: Python's
`base64.standard_b64encode`, with the resulting ASCII bytes shown as the
characters they spell. -/
def base64Encode : List Nat → List Char
  | b1 :: b2 :: b3 :: rest =>
    let n := b1 * 65536 + b2 * 256 + b3
    b64Char (n >>> 18) :: b64Char ((n >>> 12) &&& 63) ::
      b64Char ((n >>> 6) &&& 63) :: b64Char (n &&& 63) :: base64Encode rest
  | [b1, b2] =>
    let n := b1 * 1024 + b2 * 4
    [b64Char (n >>> 12), b64Char ((n >>> 6) &&& 63), b64Char (n &&& 63), '=']
  | [b1] =>
    [b64Char (b1 >>> 2), b64Char ((b1 &&& 3) <<< 4), '=', '=']
  | [] => []

/-- Comparison of dict items by key, the order `sorted(data.items(),
key=lambda x: x[0], reverse=False)` sorts with: Python compares `str`
keys lexicographically by code point, which is Lean's `String` order. -/
def keyLe (a b : String × Option String) : Prop := a.1 ≤ b.1

instance : DecidableRel keyLe := fun a b => inferInstanceAs (Decidable (a.1 ≤ b.1))

instance : IsTotal (String × Option String) keyLe := ⟨fun a b => le_total a.1 b.1⟩

instance : IsTrans (String × Option String) keyLe := ⟨fun _ _ _ h h' => le_trans h h'⟩

/-- Strict version of `keyLe`, used to compare sorted lists with distinct keys. -/
def keyLt (a b : String × Option String) : Prop := a.1 < b.1

instance : IsAntisymm (String × Option String) keyLt :=
  ⟨fun _ _ h h' => absurd h' (lt_asymm h)⟩

/-- The canonical query string of `HttpPrivate.sign`
(src/apexpro/http_private.py lines 70-72): sort the dict items by key
ascending (Python's `sorted` is stable; `insertionSort` with a reflexive
relation matches its placement of equal keys), then join the items whose
value is not `None` as `key=value` with `&`, values inserted verbatim. -/
def dataString (data : List (String × Option String)) : String :=
  String.intercalate "&"
    ((List.insertionSort keyLe data).filterMap
      (fun x => x.2.map (fun v => x.1 ++ "=" ++ v)))

/-- The canonical query string as the spec's words describe it: discard
entries whose value is null, sort the remaining entries by key in
ascending lexicographic order, join them as `key=value` pairs with `&`
and no URL-encoding.  Written from the spec, to be compared with
`dataString` (which follows the source's sort-then-filter order). -/
def canonicalQuerySpec (params : List (String × Option String)) : String :=
  String.intercalate "&"
    ((List.insertionSort keyLe (params.filter (fun x => x.2.isSome))).map
      (fun x => x.1 ++ "=" ++ x.2.getD ""))

/-- `HttpPrivate.sign` (src/apexpro/http_private.py lines 63-88).
`hmacSha256 key msg` stands for the digest of Python's
`hmac.new(key, msg=msg, digestmod=hashlib.sha256).digest()`; it is an
abstract parameter because HMAC-SHA256 is standard-library code, not code
of this repository.  Everything else follows the source line by line:
the canonical query string, the concatenated message, the key
`base64.standard_b64encode(secret.encode('utf-8'))` (base64 characters
taken as their ASCII byte values), and the base64-encoded digest
decoded back to a string. -/
def sign (hmacSha256 : List Nat → List Nat → List Nat)
    (secret request_path method iso_timestamp : String)
    (data : List (String × Option String)) : String :=
  let dataStr := dataString data
  let message_string := iso_timestamp ++ method ++ request_path ++ dataStr
  let key := (base64Encode (utf8Encode secret)).map Char.toNat
  let hashed := hmacSha256 key (utf8Encode message_string)
  String.mk (base64Encode hashed)

/-- The signer as the spec's words describe it (§4.1): message is
`iso_timestamp + method + request_path + canonical_query_string` with no
separators, the HMAC key is the base64 encoding of the UTF-8 secret
bytes, the digest is HMAC-SHA256 over the UTF-8 message bytes, and the
result is base64-encoded.  Written from the spec, to be compared with
`sign` (which follows the source). -/
def signSpec (hmacSha256 : List Nat → List Nat → List Nat)
    (secret request_path method iso_timestamp : String)
    (params : List (String × Option String)) : String :=
  let canonical := canonicalQuerySpec params
  let message := iso_timestamp ++ method ++ request_path ++ canonical
  let key := (base64Encode (utf8Encode secret)).map Char.toNat
  String.mk (base64Encode (hmacSha256 key (utf8Encode message)))

/-- The API credentials dict `self.api_key_credentials`
(fields `key`, `secret`, `passphrase`). -/
structure Credentials where
  key : String
  secret : String
  passphrase : String
deriving DecidableEq

/-- The attributes of the client object (`self`) that the private-request
and onboarding code reads. -/
structure ClientState where
  api_key_credentials : Option Credentials
  stark_public_key : Option String
  stark_public_key_y_coordinate : Option String
  default_address : Option String
  endpoint : String
deriving DecidableEq

/-- The request handed to the external transport `self._submit_request`:
its method, full path, headers (`none` models Python's `headers=None`;
a header value `none` models a `None` value in the headers dict) and
query data. -/
structure Request where
  method : String
  path : String
  headers : Option (List (String × Option String))
  query : List (String × Option String)
deriving DecidableEq

/-- Python's `str.upper()` on the ASCII method verbs this client passes
(`'GET'`, `'POST'`): upper-case each character. -/
def pyUpper (s : String) : String := String.mk (s.data.map Char.toUpper)

/-- `HttpPrivate._private_request` (src/apexpro/http_private.py lines
19-45): when credentials are configured the headers argument is replaced
by the four authentication headers, the signature computed by `sign` over
the upper-cased method, the path, the timestamp string and the data;
otherwise the headers argument is forwarded unchanged.  `nowIso` stands
for `str(generate_now())` (the helper is a clock, external to this core);
the same string is used in the signature and in the APEX-TIMESTAMP
header, exactly as the source applies `str(now_iso)` in both places. -/
def private_request (hmacSha256 : List Nat → List Nat → List Nat)
    (self : ClientState) (nowIso method path : String)
    (data : List (String × Option String))
    (headers : Option (List (String × Option String))) : Request :=
  match self.api_key_credentials with
  | some c =>
    { method := method
      path := self.endpoint ++ path
      headers := some
        [("APEX-SIGNATURE", some (sign hmacSha256 c.secret path (pyUpper method) nowIso data)),
         ("APEX-API-KEY", some c.key),
         ("APEX-TIMESTAMP", some nowIso),
         ("APEX-PASSPHRASE", some c.passphrase)]
      query := data }
  | none =>
    { method := method
      path := self.endpoint ++ path
      headers := headers
      query := data }

/-- `HttpPrivate._get` (src/apexpro/http_private.py lines 47-51): a GET
whose path is `generate_query_path(endpoint, params)` and whose `data`
and `headers` arguments are left at their defaults (`{}` and `None`).
`generate_query_path` lives in `apexpro.helpers.request_helpers`, outside
this file's source, so it is an abstract parameter `queryPathGen`. -/
def http_get (hmacSha256 : List Nat → List Nat → List Nat)
    (queryPathGen : String → List (String × Option String) → String)
    (self : ClientState) (nowIso : String)
    (endpoint : String) (params : List (String × Option String)) : Request :=
  private_request hmacSha256 self nowIso "GET" (queryPathGen endpoint params) [] none

/-- Python's `a or b` on an optional string: `None` and the empty string
are falsy, any other string is returned as is. -/
def pyOr (a b : Option String) : Option String :=
  match a with
  | some s => if s.isEmpty then b else some s
  | none => b

/-- The spec's error taxonomy (§7) for the conditions this file settles:
`MissingStarkKey` and `MissingStarkKeyYCoordinate` name the two
`ValueError` raises of `register_user`, `MalformedSignature` the
`ValueError` that `int(signature, 16)` raises in `derive_stark_key`. -/
inductive ApexError where
  | MissingStarkKey
  | MissingStarkKeyYCoordinate
  | MalformedSignature
deriving DecidableEq

/-- Equality of `Except` results is decidable when both components are,
so witnesses can evaluate the modelled functions by `decide`. -/
instance exceptDecEq {ε α : Type} [DecidableEq ε] [DecidableEq α] :
    DecidableEq (Except ε α) := fun a b =>
  match a, b with
  | Except.error e, Except.error e' =>
    if h : e = e' then isTrue (by rw [h])
    else isFalse (fun hc => h (Except.error.inj hc))
  | Except.ok x, Except.ok y =>
    if h : x = y then isTrue (by rw [h])
    else isFalse (fun hc => h (Except.ok.inj hc))
  | Except.error _, Except.ok _ => isFalse (fun hc => Except.noConfusion hc)
  | Except.ok _, Except.error _ => isFalse (fun hc => Except.noConfusion hc)

/-- `HttpPrivate.register_user` (src/apexpro/http_private.py lines
105-161), up to the request handed to the transport: resolve the stark
key and its y-coordinate with Python's `or` against the stored
attributes, raise if either resolves to `None` (modelled as
`Except.error`, returned before any request value exists and before the
wallet signer is applied), then sign the onboarding action with the
external wallet signer and build the POST with the onboarding data dict
and the two onboarding headers.  `signerSign addr action nonce` stands
for `self.signer.sign(addr, action=action, nonce=nonce)` (an external
wallet collaborator); `urlSuffix` and `onboardingAction` stand for the
constants `URL_SUFFIX` and `OFF_CHAIN_ONBOARDING_ACTION` from
`apexpro.constants`, which is not under this file's source.  The
response-dependent update of `self.user`/`self.account` happens after
the transport call and is outside this model. -/
def register_user (hmacSha256 : List Nat → List Nat → List Nat)
    (self : ClientState)
    (signerSign : Option String → String → String → String)
    (urlSuffix onboardingAction nowIso : String) (nonce : String)
    (starkKey stark_public_key_y_coordinate ethereum_address
      referred_by_affiliate_link country isLpAccount eth_mul_address :
      Option String) : Except ApexError Request :=
  let stark_key := pyOr starkKey self.stark_public_key
  let stark_key_y := pyOr stark_public_key_y_coordinate self.stark_public_key_y_coordinate
  if stark_key = none then
    Except.error ApexError.MissingStarkKey
  else if stark_key_y = none then
    Except.error ApexError.MissingStarkKeyYCoordinate
  else
    let eth_address := pyOr ethereum_address self.default_address
    let signature := signerSign eth_address onboardingAction nonce
    let path := urlSuffix ++ "/v1/onboarding"
    Except.ok (private_request hmacSha256 self nowIso "POST" path
      [("starkKey", stark_key),
       ("starkKeyYCoordinate", stark_key_y),
       ("referredByAffiliateLink", referred_by_affiliate_link),
       ("ethereumAddress", eth_address),
       ("country", country),
       ("category", some "CATEGORY_API"),
       ("isLpAccount", isLpAccount),
       ("ethMulAddress", eth_mul_address)]
      (some [("APEX-SIGNATURE", some signature),
             ("APEX-ETHEREUM-ADDRESS", eth_address)]))

/-- ASCII whitespace, as Python's `int(str, base)` strips it around the
number (the model restricts Python's wider Unicode whitespace set to
ASCII; wallet signature strings are ASCII hex). -/
def isPySpace (c : Char) : Bool :=
  c = ' ' ∨ c = '\t' ∨ c = '\n' ∨ c = '\r' ∨ c = '\x0b' ∨ c = '\x0c'

/-- Value of an ASCII hexadecimal digit, `none` for any other character
(the model restricts Python's acceptance of non-ASCII Unicode digits to
ASCII; wallet signature strings are ASCII hex). -/
def hexVal (c : Char) : Option Nat :=
  if '0' ≤ c ∧ c ≤ '9' then some (c.toNat - '0'.toNat)
  else if 'a' ≤ c ∧ c ≤ 'f' then some (c.toNat - 'a'.toNat + 10)
  else if 'A' ≤ c ∧ c ≤ 'F' then some (c.toNat - 'A'.toNat + 10)
  else none

/-- Remaining digits of a base-16 literal after its first digit, with
Python's underscore rule: a single underscore may stand between two
digits, none may end the literal. -/
def hexDigitsRest : List Char → Nat → Option Nat
  | [], acc => some acc
  | '_' :: c :: cs, acc =>
    match hexVal c with
    | some v => hexDigitsRest cs (acc * 16 + v)
    | none => none
  | ['_'], _ => none
  | c :: cs, acc =>
    match hexVal c with
    | some v => hexDigitsRest cs (acc * 16 + v)
    | none => none

/-- The digit part of Python's base-16 integer literal, after sign and
surrounding whitespace are gone: an optional `0x`/`0X` prefix (an
underscore may follow it), then at least one hex digit with single
underscores allowed between digits. -/
def parseHexBody : List Char → Option Nat
  | '0' :: c :: cs =>
    if c = 'x' ∨ c = 'X' then
      match cs with
      | '_' :: c2 :: cs2 => (hexVal c2).bind (fun v => hexDigitsRest cs2 v)
      | c2 :: cs2 => (hexVal c2).bind (fun v => hexDigitsRest cs2 v)
      | [] => none
    else hexDigitsRest (c :: cs) 0
  | ['0'] => some 0
  | c :: cs => (hexVal c).bind (fun v => hexDigitsRest cs v)
  | [] => none

/-- Python's `int(s, 16)`: strip whitespace on both sides, accept an
optional sign directly before the literal, parse the hex literal; `none`
models the `ValueError` on any other string. -/
def pyIntHex (s : String) : Option Int :=
  let cs := s.data.dropWhile isPySpace
  let cs := (cs.reverse.dropWhile isPySpace).reverse
  match cs with
  | '+' :: rest => (parseHexBody rest).map (fun n => (n : Int))
  | '-' :: rest => (parseHexBody rest).map (fun n => -(n : Int))
  | rest => (parseHexBody rest).map (fun n => (n : Int))

/-- Python's `hex(n)` for a nonnegative integer: `0x` followed by the
lowercase hex digits (`Nat.toDigits 16` emits them lowercase, most
significant first, and `['0']` for zero, matching `hex(0) = '0x0'`). -/
def pyHex (n : Nat) : String :=
  "0x" ++ String.mk (Nat.toDigits 16 n)

/-- The dict `derive_stark_key` returns: the public point's x coordinate
(key `public_key`), its y coordinate (key `public_key_y_coordinate`) and
the private key, all hex strings. -/
structure StarkKeyPair where
  public_key : String
  public_key_y_coordinate : String
  private_key : String
deriving DecidableEq

/-- `HttpPrivate.derive_stark_key` (src/apexpro/http_private.py lines
167-186), from the wallet signature string onward.  `signature` stands
for the return of `self.starkeySigner.sign_message(...)` (an external
wallet collaborator, so the theorems quantify over it).  `keccak n`
stands for the integer value of the digest
`Web3.solidityKeccak(['uint256'], [n])` (web3 library code, abstract
here; the source reads the digest back through `int(digest.hex(), 16)`,
which the model folds into the digest's integer value).  `pubPair h`
stands for `private_key_to_public_key_pair_hex(h)`, repository code that
is not under this file's source: the spec says only that it returns the
x and y coordinates of the public point of the private key on the stark
curve, as hex strings, so it stays an abstract parameter. -/
def derive_stark_key (keccak : Int → Nat) (pubPair : String → String × String)
    (signature : String) : Except ApexError StarkKeyPair :=
  match pyIntHex signature with
  | none => Except.error ApexError.MalformedSignature
  | some signature_int =>
    let hashed_signature := keccak signature_int
    let private_key_int := hashed_signature >>> 5
    let private_key_hex := pyHex private_key_int
    let xy := pubPair private_key_hex
    Except.ok
      { public_key := xy.1
        public_key_y_coordinate := xy.2
        private_key := private_key_hex }

/-- The key-derivation pipeline as the spec's words describe it, applied
to the already-parsed signature integer: hash it through Keccak (the
integer encoded as a 256-bit unsigned value, inside the abstract
`keccak`), interpret the digest as an integer, right-shift by exactly 5
bits — that is, divide by 2^5 — to obtain the private scalar, and return
the private key hex string together with the two public coordinates.
Written from the spec, to be compared with `derive_stark_key`. -/
def deriveStarkKeySpec (keccak : Int → Nat)
    (pubPair : String → String × String) (signatureInt : Int) : StarkKeyPair :=
  let digest := keccak signatureInt
  let privateScalar := digest / 2 ^ 5
  let privateKeyHex := pyHex privateScalar
  { public_key := (pubPair privateKeyHex).1
    public_key_y_coordinate := (pubPair privateKeyHex).2
    private_key := privateKeyHex }

/-! Concrete inputs used by the witness and counterexample theorems. -/

/-- A trivial stand-in for the abstract HMAC-SHA256 collaborator, used
only to instantiate witnesses at concrete inputs. -/
def hmacZero : List Nat → List Nat → List Nat := fun _ _ => []

/-- A stand-in for the abstract Keccak collaborator, used only to
instantiate witnesses at concrete inputs. -/
def keccakEx : Int → Nat := fun i => i.natAbs * 97

/-- A stand-in for the abstract public-key-pair collaborator, used only
to instantiate witnesses at concrete inputs. -/
def pubPairEx : String → String × String := fun h => (h ++ "x", h ++ "y")

/-- A stand-in for the wallet signer collaborator, used only to
instantiate witnesses at concrete inputs. -/
def signerEx : Option String → String → String → String := fun _ _ _ => "WALLETSIG"

/-- Concrete credentials for witnesses. -/
def credentialsEx : Credentials := ⟨"K", "S", "P"⟩

/-- A client state with credentials configured. -/
def stateWithCreds : ClientState :=
  ⟨some credentialsEx, some "sk", some "sy", some "0xA", "https://api"⟩

/-- A client state with no credentials configured (the onboarding-time
configuration). -/
def stateNoCreds : ClientState :=
  ⟨none, some "sk", some "sy", some "0xA", "https://api"⟩

section SortLemmas

variable {α : Type} (r : α → α → Prop) [DecidableRel r] (p : α → Bool)

/-- Inserting an element the filter rejects does not change the filtered
list. -/
lemma filter_orderedInsert_of_neg (x : α) (hx : p x = false) :
    ∀ l : List α, (List.orderedInsert r x l).filter p = l.filter p
  | [] => by simp [hx]
  | b :: l => by
    by_cases h : r x b
    · rw [List.orderedInsert, if_pos h, List.filter_cons, hx]
      simp
    · rw [List.orderedInsert, if_neg h, List.filter_cons, List.filter_cons,
        filter_orderedInsert_of_neg x hx l]

/-- An element below the whole list is inserted at its head. -/
lemma orderedInsert_eq_cons (x : α) :
    ∀ m : List α, (∀ y ∈ m, r x y) → List.orderedInsert r x m = x :: m
  | [], _ => rfl
  | b :: m, h => by
    rw [List.orderedInsert, if_pos (h b (List.mem_cons_self b m))]

/-- On a sorted list, filtering commutes with inserting an element the
filter keeps. -/
lemma filter_orderedInsert_of_pos [IsTrans α r] (x : α) (hx : p x = true) :
    ∀ l : List α, l.Sorted r →
      (List.orderedInsert r x l).filter p = List.orderedInsert r x (l.filter p)
  | [], _ => by simp [hx]
  | b :: l, hs => by
    have hbl : ∀ y ∈ l, r b y := List.rel_of_sorted_cons hs
    by_cases h : r x b
    · rw [List.orderedInsert, if_pos h, List.filter_cons, hx]
      simp only [if_pos trivial]
      rw [orderedInsert_eq_cons]
      intro y hy
      have hy' : y ∈ b :: l := List.mem_of_mem_filter hy
      rcases List.mem_cons.1 hy' with h' | h'
      · exact h' ▸ h
      · exact Trans.trans h (hbl y h')
    · rw [List.orderedInsert, if_neg h, List.filter_cons, List.filter_cons]
      by_cases hb : p b
      · rw [if_pos hb, if_pos hb,
          filter_orderedInsert_of_pos x hx l hs.of_cons,
          List.orderedInsert, if_neg h]
      · rw [if_neg hb, if_neg hb, filter_orderedInsert_of_pos x hx l hs.of_cons]

/-- Filtering commutes with insertion sort: sorting then discarding
equals discarding then sorting. -/
lemma filter_insertionSort [IsTotal α r] [IsTrans α r] :
    ∀ l : List α, (List.insertionSort r l).filter p = List.insertionSort r (l.filter p)
  | [] => rfl
  | x :: l => by
    rw [List.insertionSort, List.filter_cons]
    by_cases hx : p x
    · rw [if_pos hx,
        filter_orderedInsert_of_pos r p x (by simpa using hx) _
          (List.sorted_insertionSort r l),
        filter_insertionSort l, List.insertionSort]
    · rw [if_neg hx,
        filter_orderedInsert_of_neg r p x (by simpa using hx) _,
        filter_insertionSort l]

end SortLemmas

/-- The source's formatting pass over sorted items (format the pairs
whose value is not `None`) equals formatting every pair of the
null-filtered list. -/
lemma filterMap_fmt_eq (l : List (String × Option String)) :
    l.filterMap (fun x => x.2.map (fun v => x.1 ++ "=" ++ v)) =
      (l.filter (fun x => x.2.isSome)).map (fun x => x.1 ++ "=" ++ x.2.getD "") := by
  induction l with
  | nil => rfl
  | cons a l ih =>
    rcases a with ⟨k, v⟩
    cases v <;> simp [List.filterMap_cons, List.filter_cons, ih]

/-- The source's canonical query string (sort, then drop nulls while
joining) equals the spec's (drop nulls, then sort, then join). -/
lemma dataString_eq_canonicalQuerySpec (d : List (String × Option String)) :
    dataString d = canonicalQuerySpec d := by
  unfold dataString canonicalQuerySpec
  rw [filterMap_fmt_eq, filter_insertionSort]

/-- Removing a null-valued entry anywhere in the data leaves the
canonical query string unchanged. -/
lemma dataString_erase_none (pre post : List (String × Option String)) (k : String) :
    dataString (pre ++ (k, (none : Option String)) :: post) = dataString (pre ++ post) := by
  rw [dataString_eq_canonicalQuerySpec, dataString_eq_canonicalQuerySpec]
  unfold canonicalQuerySpec
  rw [List.filter_append, List.filter_cons, List.filter_append]
  simp

/-- Sorting by key gives the same list for any two insertion orders of
the same pairs, when the keys are pairwise distinct. -/
lemma insertionSort_eq_of_perm (d₁ d₂ : List (String × Option String))
    (hp : d₁.Perm d₂) (hnd : (d₁.map Prod.fst).Nodup) :
    List.insertionSort keyLe d₁ = List.insertionSort keyLe d₂ := by
  have hperm : (List.insertionSort keyLe d₁).Perm (List.insertionSort keyLe d₂) :=
    (List.perm_insertionSort keyLe d₁).trans
      (hp.trans (List.perm_insertionSort keyLe d₂).symm)
  have hsym : Symmetric (fun a b : String × Option String => a.1 ≠ b.1) :=
    fun _ _ h => Ne.symm h
  have hne₁ : d₁.Pairwise (fun a b => a.1 ≠ b.1) := List.pairwise_map.1 hnd
  have hnd₂ : (d₂.map Prod.fst).Nodup := (hp.map Prod.fst).nodup hnd
  have hne₂ : d₂.Pairwise (fun a b => a.1 ≠ b.1) := List.pairwise_map.1 hnd₂
  have hlt : ∀ d : List (String × Option String), d.Pairwise (fun a b => a.1 ≠ b.1) →
      (List.insertionSort keyLe d).Sorted keyLt := by
    intro d hne
    have hs : (List.insertionSort keyLe d).Sorted keyLe :=
      List.sorted_insertionSort keyLe d
    have hne' : (List.insertionSort keyLe d).Pairwise (fun a b => a.1 ≠ b.1) :=
      (((List.perm_insertionSort keyLe d)).pairwise_iff (fun h => hsym h)).2 hne
    exact (hs.and hne').imp (fun h => lt_of_le_of_ne h.1 h.2)
  exact List.eq_of_perm_of_sorted hperm (hlt d₁ hne₁) (hlt d₂ hne₂)

/-! ## Claim theorems -/

/-- C1: for every configured secret and every
(request_path, method, iso_timestamp, params), `sign` returns the base64
encoding of the HMAC-SHA256 digest — for every HMAC-SHA256 function —
computed over the UTF-8 bytes of the string
`iso_timestamp ++ method ++ request_path ++ canonical query string` (in
that order, no separators), keyed by the base64 encoding of the UTF-8
bytes of the secret: the source's `sign` agrees with `signSpec`, the
signer written from the spec's words, on every input. -/
theorem sign_matches_spec (hmacSha256 : List Nat → List Nat → List Nat)
    (secret request_path method iso_timestamp : String)
    (params : List (String × Option String)) :
    sign hmacSha256 secret request_path method iso_timestamp params =
      signSpec hmacSha256 secret request_path method iso_timestamp params := by
  unfold sign signSpec
  rw [dataString_eq_canonicalQuerySpec]

/-- C3: the canonical query string of `sign` equals the spec's
description (discard null-valued entries, sort the rest by key
ascending, join as `key=value` with `&` and no escaping), and removing a
null-valued entry anywhere in the params leaves the signature unchanged
for all inputs. -/
theorem canonical_query_and_null_params :
    (∀ params : List (String × Option String),
      dataString params = canonicalQuerySpec params) ∧
    (∀ (hmacSha256 : List Nat → List Nat → List Nat)
        (secret request_path method iso_timestamp k : String)
        (pre post : List (String × Option String)),
      sign hmacSha256 secret request_path method iso_timestamp
          (pre ++ (k, (none : Option String)) :: post) =
        sign hmacSha256 secret request_path method iso_timestamp (pre ++ post)) := by
  refine ⟨dataString_eq_canonicalQuerySpec, ?_⟩
  intro hmacSha256 secret request_path method iso_timestamp k pre post
  unfold sign
  rw [dataString_erase_none]

/-- C9: canonicalization is insertion-order-independent — for any two
params lists with the same key/value pairs in different orders (and
keys pairwise distinct, as in a Python dict) and any fixed secret,
timestamp, method and path, the canonical query string and the signature
coincide. -/
theorem sign_insertion_order_independent
    (hmacSha256 : List Nat → List Nat → List Nat)
    (secret request_path method iso_timestamp : String)
    (d₁ d₂ : List (String × Option String))
    (hperm : d₁.Perm d₂) (hnd : (d₁.map Prod.fst).Nodup) :
    dataString d₁ = dataString d₂ ∧
      sign hmacSha256 secret request_path method iso_timestamp d₁ =
        sign hmacSha256 secret request_path method iso_timestamp d₂ := by
  have hds : dataString d₁ = dataString d₂ := by
    unfold dataString
    rw [insertionSort_eq_of_perm d₁ d₂ hperm hnd]
  refine ⟨hds, ?_⟩
  unfold sign
  rw [hds]

/-- Witness for C9: permuting a concrete two-entry params dict changes
neither the canonical query string nor the signature. -/
theorem sign_insertion_order_independent_witness :
    dataString [("b", some "2"), ("a", some "1")] =
        dataString [("a", some "1"), ("b", some "2")] ∧
      sign (fun _ _ => []) "S" "/api/v1/account" "GET" "2024-01-01T00:00:00.000Z"
          [("b", some "2"), ("a", some "1")] =
        sign (fun _ _ => []) "S" "/api/v1/account" "GET" "2024-01-01T00:00:00.000Z"
          [("a", some "1"), ("b", some "2")] :=
  sign_insertion_order_independent (fun _ _ => []) "S" "/api/v1/account" "GET"
    "2024-01-01T00:00:00.000Z" _ _ (by decide) (by decide)

/-- C7: whenever credentials are configured, a private request carries
exactly the four authentication headers — signature, API key, timestamp,
passphrase — and the APEX-TIMESTAMP value is the very string that heads
the signed message (the second conjunct spells the signed message out:
`nowIso ++ method ++ path ++ canonical query`). -/
theorem private_request_four_headers
    (hmacSha256 : List Nat → List Nat → List Nat) (self : ClientState)
    (nowIso method path : String) (data : List (String × Option String))
    (headers : Option (List (String × Option String))) (c : Credentials)
    (hc : self.api_key_credentials = some c) :
    (private_request hmacSha256 self nowIso method path data headers).headers =
      some [("APEX-SIGNATURE",
              some (sign hmacSha256 c.secret path (pyUpper method) nowIso data)),
            ("APEX-API-KEY", some c.key),
            ("APEX-TIMESTAMP", some nowIso),
            ("APEX-PASSPHRASE", some c.passphrase)] ∧
    sign hmacSha256 c.secret path (pyUpper method) nowIso data =
      String.mk (base64Encode (hmacSha256
        ((base64Encode (utf8Encode c.secret)).map Char.toNat)
        (utf8Encode (nowIso ++ pyUpper method ++ path ++ dataString data)))) := by
  constructor
  · unfold private_request
    rw [hc]
  · rfl

/-- Witness for C7: the four headers of a concrete private request. -/
theorem private_request_four_headers_witness :
    (private_request hmacZero stateWithCreds "2024-01-01T00:00:00.000Z" "get"
        "/api/v1/account" [("id", some "7")] none).headers =
      some [("APEX-SIGNATURE",
              some (sign hmacZero "S" "/api/v1/account" (pyUpper "get")
                "2024-01-01T00:00:00.000Z" [("id", some "7")])),
            ("APEX-API-KEY", some "K"),
            ("APEX-TIMESTAMP", some "2024-01-01T00:00:00.000Z"),
            ("APEX-PASSPHRASE", some "P")] ∧
    sign hmacZero "S" "/api/v1/account" (pyUpper "get") "2024-01-01T00:00:00.000Z"
        [("id", some "7")] =
      String.mk (base64Encode (hmacZero
        ((base64Encode (utf8Encode "S")).map Char.toNat)
        (utf8Encode ("2024-01-01T00:00:00.000Z" ++ pyUpper "get" ++ "/api/v1/account" ++
          dataString [("id", some "7")])))) :=
  private_request_four_headers hmacZero stateWithCreds "2024-01-01T00:00:00.000Z"
    "get" "/api/v1/account" [("id", some "7")] none credentialsEx rfl

/-- C10: a private GET issued through `_get` folds its parameters into
the request path through the query-path generator and passes an empty
data mapping to signing, so the canonical-query component of the signed
message is the empty string and the parameters are authenticated only as
part of the path: the resulting request has empty query data and its
signature is the HMAC of `nowIso ++ "GET" ++ path` with nothing
appended. -/
theorem get_request_empty_canonical_query
    (hmacSha256 : List Nat → List Nat → List Nat)
    (queryPathGen : String → List (String × Option String) → String)
    (self : ClientState) (nowIso endpoint : String)
    (params : List (String × Option String)) (c : Credentials)
    (hc : self.api_key_credentials = some c) :
    http_get hmacSha256 queryPathGen self nowIso endpoint params =
      { method := "GET"
        path := self.endpoint ++ queryPathGen endpoint params
        headers := some
          [("APEX-SIGNATURE", some (String.mk (base64Encode (hmacSha256
              ((base64Encode (utf8Encode c.secret)).map Char.toNat)
              (utf8Encode (nowIso ++ "GET" ++ queryPathGen endpoint params)))))),
           ("APEX-API-KEY", some c.key),
           ("APEX-TIMESTAMP", some nowIso),
           ("APEX-PASSPHRASE", some c.passphrase)]
        query := [] } ∧
    dataString [] = "" := by
  refine ⟨?_, rfl⟩
  have hmsg : sign hmacSha256 c.secret (queryPathGen endpoint params)
      (pyUpper "GET") nowIso [] =
      String.mk (base64Encode (hmacSha256
        ((base64Encode (utf8Encode c.secret)).map Char.toNat)
        (utf8Encode (nowIso ++ "GET" ++ queryPathGen endpoint params)))) := by
    unfold sign
    dsimp only
    have h0 : dataString ([] : List (String × Option String)) = "" := rfl
    have h1 : pyUpper "GET" = "GET" := rfl
    rw [h0, h1, String.append_empty]
  unfold http_get private_request
  rw [hc]
  dsimp only
  rw [hmsg]

/-- Witness for C10: a concrete private GET with parameters has empty
query data and the four headers over the parameter-free message. -/
theorem get_request_empty_canonical_query_witness :
    http_get hmacZero (fun e _ => e ++ "?id=7") stateWithCreds
        "2024-01-01T00:00:00.000Z" "/api/v1/account" [("id", some "7")] =
      { method := "GET"
        path := "https://api" ++ ("/api/v1/account" ++ "?id=7")
        headers := some
          [("APEX-SIGNATURE", some (String.mk (base64Encode (hmacZero
              ((base64Encode (utf8Encode "S")).map Char.toNat)
              (utf8Encode ("2024-01-01T00:00:00.000Z" ++ "GET" ++
                ("/api/v1/account" ++ "?id=7"))))))),
           ("APEX-API-KEY", some "K"),
           ("APEX-TIMESTAMP", some "2024-01-01T00:00:00.000Z"),
           ("APEX-PASSPHRASE", some "P")]
        query := [] } ∧
    dataString [] = "" :=
  get_request_empty_canonical_query hmacZero (fun e _ => e ++ "?id=7")
    stateWithCreds "2024-01-01T00:00:00.000Z" "/api/v1/account"
    [("id", some "7")] credentialsEx rfl

/-- C5: with neither an explicit stark key argument nor a stored stark
public key, `register_user` fails with `MissingStarkKey`, and with a
stark key available but no y-coordinate passed or stored it fails with
`MissingStarkKeyYCoordinate` — in both cases returning the error, so no
request value exists and nothing reaches the transport (in the source
the raise even precedes the wallet-signer call). -/
theorem register_user_missing_key_errors
    (hmacSha256 : List Nat → List Nat → List Nat) (self : ClientState)
    (signerSign : Option String → String → String → String)
    (urlSuffix onboardingAction nowIso nonce : String)
    (yArg ethA refL country isLp ethMul : Option String) :
    (self.stark_public_key = none →
      register_user hmacSha256 self signerSign urlSuffix onboardingAction nowIso nonce
          none yArg ethA refL country isLp ethMul =
        Except.error ApexError.MissingStarkKey) ∧
    (∀ starkKey : Option String,
      pyOr starkKey self.stark_public_key ≠ none →
      yArg = none → self.stark_public_key_y_coordinate = none →
      register_user hmacSha256 self signerSign urlSuffix onboardingAction nowIso nonce
          starkKey yArg ethA refL country isLp ethMul =
        Except.error ApexError.MissingStarkKeyYCoordinate) := by
  constructor
  · intro hks
    unfold register_user
    rw [hks]
    dsimp only [pyOr]
    rw [if_pos rfl]
  · intro starkKey hk hy hys
    unfold register_user
    rw [hy, hys]
    dsimp only
    rw [if_neg hk]
    dsimp only [pyOr]
    rw [if_pos rfl]

/-- Witness for C5: a state with nothing stored and no arguments fails
with `MissingStarkKey`; one with only the stark key stored fails with
`MissingStarkKeyYCoordinate`. -/
theorem register_user_missing_key_errors_witness :
    register_user hmacZero ⟨none, none, none, none, "https://api"⟩ signerEx
        "/api" "OB" "T" "N" none none none none none none none =
      Except.error ApexError.MissingStarkKey ∧
    register_user hmacZero ⟨none, some "sk", none, none, "https://api"⟩ signerEx
        "/api" "OB" "T" "N" none none none none none none none =
      Except.error ApexError.MissingStarkKeyYCoordinate :=
  ⟨(register_user_missing_key_errors hmacZero ⟨none, none, none, none, "https://api"⟩
      signerEx "/api" "OB" "T" "N" none none none none none none).1 rfl,
   (register_user_missing_key_errors hmacZero ⟨none, some "sk", none, none, "https://api"⟩
      signerEx "/api" "OB" "T" "N" none none none none none none).2
      none (by decide) rfl rfl⟩

/-- C4 counterexample: with API credentials configured, the onboarding
request does NOT carry the two onboarding headers — `_private_request`
replaces the headers `register_user` passes with the standard four, so
the claim's "for every credential configuration" fails at this concrete
configuration. -/
theorem register_user_two_headers_counterexample :
    (register_user hmacZero stateWithCreds signerEx "/api" "OB" "T" "N"
        none none none none none none none).map
        (fun r => r.headers.map (fun hs => hs.map Prod.fst)) =
      Except.ok (some ["APEX-SIGNATURE", "APEX-API-KEY", "APEX-TIMESTAMP",
        "APEX-PASSPHRASE"]) ∧
    (["APEX-SIGNATURE", "APEX-API-KEY", "APEX-TIMESTAMP", "APEX-PASSPHRASE"] ≠
      ["APEX-SIGNATURE", "APEX-ETHEREUM-ADDRESS"]) :=
  ⟨rfl, by decide⟩

/-- C4 (amended): the onboarding request carries exactly the two
headers — the wallet signature over the onboarding action and the
Ethereum address — in place of the standard four, in the configuration
with no API credentials (with credentials configured,
`_private_request` overrides them with the standard four; see the
counterexample). -/
theorem register_user_onboarding_headers
    (hmacSha256 : List Nat → List Nat → List Nat) (self : ClientState)
    (signerSign : Option String → String → String → String)
    (urlSuffix onboardingAction nowIso nonce : String)
    (starkKey yArg ethA refL country isLp ethMul : Option String)
    (hcred : self.api_key_credentials = none)
    (hk : pyOr starkKey self.stark_public_key ≠ none)
    (hy : pyOr yArg self.stark_public_key_y_coordinate ≠ none) :
    register_user hmacSha256 self signerSign urlSuffix onboardingAction nowIso nonce
        starkKey yArg ethA refL country isLp ethMul =
      Except.ok
        { method := "POST"
          path := self.endpoint ++ (urlSuffix ++ "/v1/onboarding")
          headers := some
            [("APEX-SIGNATURE",
                some (signerSign (pyOr ethA self.default_address) onboardingAction nonce)),
             ("APEX-ETHEREUM-ADDRESS", pyOr ethA self.default_address)]
          query :=
            [("starkKey", pyOr starkKey self.stark_public_key),
             ("starkKeyYCoordinate", pyOr yArg self.stark_public_key_y_coordinate),
             ("referredByAffiliateLink", refL),
             ("ethereumAddress", pyOr ethA self.default_address),
             ("country", country),
             ("category", some "CATEGORY_API"),
             ("isLpAccount", isLp),
             ("ethMulAddress", ethMul)] } := by
  unfold register_user
  dsimp only
  rw [if_neg hk, if_neg hy]
  unfold private_request
  rw [hcred]

/-- Witness for C4's amended claim: a concrete credential-less state
sends the onboarding POST with exactly the two onboarding headers. -/
theorem register_user_onboarding_headers_witness :
    register_user hmacZero stateNoCreds signerEx "/api" "OB" "T" "N"
        none none none none none none none =
      Except.ok
        { method := "POST"
          path := "https://api" ++ ("/api" ++ "/v1/onboarding")
          headers := some [("APEX-SIGNATURE", some "WALLETSIG"),
                           ("APEX-ETHEREUM-ADDRESS", some "0xA")]
          query := [("starkKey", some "sk"), ("starkKeyYCoordinate", some "sy"),
                    ("referredByAffiliateLink", none), ("ethereumAddress", some "0xA"),
                    ("country", none), ("category", some "CATEGORY_API"),
                    ("isLpAccount", none), ("ethMulAddress", none)] } :=
  register_user_onboarding_headers hmacZero stateNoCreds signerEx "/api" "OB" "T" "N"
    none none none none none none none rfl (by decide) (by decide)

/-- C2: on every wallet signature string that parses as a base-16
integer, `derive_stark_key` follows the spec's pipeline — parse, Keccak
over the parsed integer, right shift of the 256-bit digest by exactly 5
bits (division by 2^5), and the public point's coordinates next to the
private key as hex strings: it returns `deriveStarkKeySpec`, the
pipeline written from the spec's words, applied to the parsed integer,
for every Keccak and public-point function. -/
theorem derive_stark_key_matches_spec (keccak : Int → Nat)
    (pubPair : String → String × String) (signature : String) (n : Int)
    (h : pyIntHex signature = some n) :
    derive_stark_key keccak pubPair signature =
      Except.ok (deriveStarkKeySpec keccak pubPair n) := by
  unfold derive_stark_key deriveStarkKeySpec
  rw [h]
  dsimp only
  rw [Nat.shiftRight_eq_div_pow]

/-- Witness for C2: the concrete signature string 0x2a parses to 42 and
derives the spec pipeline's key pair. -/
theorem derive_stark_key_matches_spec_witness :
    pyIntHex "0x2a" = some 42 ∧
    derive_stark_key keccakEx pubPairEx "0x2a" =
      Except.ok (deriveStarkKeySpec keccakEx pubPairEx 42) :=
  ⟨by decide, derive_stark_key_matches_spec keccakEx pubPairEx "0x2a" 42 (by decide)⟩

/-- C6 (amended): `derive_stark_key` fails with `MalformedSignature` if
and only if the wallet signature string does not parse as a base-16
integer — the source performs no length check — and on such a signature
no key pair is returned. -/
theorem malformed_signature_iff_not_hex (keccak : Int → Nat)
    (pubPair : String → String × String) (signature : String) :
    (derive_stark_key keccak pubPair signature =
        Except.error ApexError.MalformedSignature ↔ pyIntHex signature = none) ∧
    ∀ kp : StarkKeyPair, pyIntHex signature = none →
      derive_stark_key keccak pubPair signature ≠ Except.ok kp := by
  cases h : pyIntHex signature with
  | none => simp [derive_stark_key, h]
  | some n => simp [derive_stark_key, h]

/-- C6 counterexample: no single expected length L can make the claimed
equivalence (fails iff not valid hex of length L) true, because the
valid-hex strings 1 and 22, of lengths 1 and 2, both pass the parse and
neither triggers `MalformedSignature`. -/
theorem malformed_signature_length_counterexample :
    ¬ ∃ L : Nat, ∀ s : String,
        derive_stark_key keccakEx pubPairEx s =
            Except.error ApexError.MalformedSignature ↔
          ¬((pyIntHex s).isSome = true ∧ s.length = L) := by
  rintro ⟨L, h⟩
  have d1 : ¬ derive_stark_key keccakEx pubPairEx "1" =
      Except.error ApexError.MalformedSignature := by decide
  have d2 : ¬ derive_stark_key keccakEx pubPairEx "22" =
      Except.error ApexError.MalformedSignature := by decide
  have e1 : (pyIntHex "1").isSome = true ∧ ("1" : String).length = L := by
    by_contra hc
    exact d1 ((h "1").2 hc)
  have e2 : (pyIntHex "22").isSome = true ∧ ("22" : String).length = L := by
    by_contra hc
    exact d2 ((h "22").2 hc)
  have h1 : ("1" : String).length = 1 := by decide
  have h2 : ("22" : String).length = 2 := by decide
  have hL1 : 1 = L := h1.symm.trans e1.2
  have hL2 : 2 = L := h2.symm.trans e2.2
  omega

/-- C8: the derivation pipeline is deterministic — two runs of
`derive_stark_key` on the same fixed signature string give byte-identical
private key, public-x and public-y hex strings (the embedded pipeline is
a pure function: no randomness anywhere from parse to public point). -/
theorem derive_stark_key_deterministic (keccak : Int → Nat)
    (pubPair : String → String × String) (signature : String)
    (kp kp' : StarkKeyPair)
    (h : derive_stark_key keccak pubPair signature = Except.ok kp)
    (h' : derive_stark_key keccak pubPair signature = Except.ok kp') :
    kp.private_key = kp'.private_key ∧ kp.public_key = kp'.public_key ∧
      kp.public_key_y_coordinate = kp'.public_key_y_coordinate ∧
      derive_stark_key keccak pubPair signature =
        derive_stark_key keccak pubPair signature := by
  have hkk : kp = kp' := Except.ok.inj (h.symm.trans h')
  subst hkk
  exact ⟨rfl, rfl, rfl, rfl⟩

/-- Witness for C8: two runs on the concrete signature 0x2a produce the
same concrete key pair. -/
theorem derive_stark_key_deterministic_witness :
    (StarkKeyPair.mk "0x7fx" "0x7fy" "0x7f").private_key =
        (StarkKeyPair.mk "0x7fx" "0x7fy" "0x7f").private_key ∧
      (StarkKeyPair.mk "0x7fx" "0x7fy" "0x7f").public_key =
        (StarkKeyPair.mk "0x7fx" "0x7fy" "0x7f").public_key ∧
      (StarkKeyPair.mk "0x7fx" "0x7fy" "0x7f").public_key_y_coordinate =
        (StarkKeyPair.mk "0x7fx" "0x7fy" "0x7f").public_key_y_coordinate ∧
      derive_stark_key keccakEx pubPairEx "0x2a" =
        derive_stark_key keccakEx pubPairEx "0x2a" :=
  derive_stark_key_deterministic keccakEx pubPairEx "0x2a" _ _ (by decide) (by decide)

end Apexpro
